import Mathlib

/-!
Shallow embedding of the translation pipeline of `src/unnamed/part_000`
(the translation service: `safeParseAiJson`, `normOneLine`, `translateText`,
`translateJsonRecursive`, `translateJson`).

External collaborators are modelled as oracles:
* the platform `JSON.parse` is a parameter `parse : String → Option JsonValue`
  (`none` = the parse threw);
* the completion gateway is a `Gateway` record holding, for each of the four
  possible round-trips of one `translateText` run (first detection call,
  simple fallback call, verification call, no-op retry call), either the raw
  text the provider returned (`Except.ok`) or a transport error
  (`Except.error msg`, modelling a thrown `Error` with that message).

`translateText` additionally returns the list of gateway calls it issued, in
order, each record naming the client object used (`openai` / `anthropic`),
the kind of call and the user payload sent, so that claims about which calls
are issued (and through which client) are statable.
-/

namespace TranslationApp

/-- The two providers of `src/types/translation.ts` (`Provider`). -/
inductive Provider where
  | openai
  | anthropic
deriving DecidableEq, Repr

/-- JS JSON values (`JsonValue` of `src/types/translation.ts`): string,
number, boolean, null, array, object.  The number payload is carried as an
`Int`; the pipeline never inspects or alters numbers, so the carrier is
irrelevant to every claim.  An object is its field list in insertion order
(a materialised JS object, hence no duplicate keys are ever produced by
`JSON.parse`; lookup takes the first match). -/
inductive JsonValue where
  | str (s : String)
  | num (n : Int)
  | bool (b : Bool)
  | null
  | arr (items : List JsonValue)
  | obj (fields : List (String × JsonValue))

/-- JS truthiness of a `JsonValue` (`!x` tests): `""`, `0`, `false`, `null`
are falsy; every array and object is truthy. -/
def jsTruthy : JsonValue → Bool
  | .str s => s ≠ ""
  | .num n => n ≠ 0
  | .bool b => b
  | .null => false
  | .arr _ => true
  | .obj _ => true

/-- JS `typeof x === 'object'`: true for objects, arrays and `null`. -/
def jsTypeofObject : JsonValue → Bool
  | .null => true
  | .arr _ => true
  | .obj _ => true
  | _ => false

/-- JS property access `v.k` (undefined = `none`): only objects carry the
fields the parser looks for. -/
def jget : JsonValue → String → Option JsonValue
  | .obj fields, k => fields.lookup k
  | _, _ => none

/-- `AiLanguageCheckResult` of `src/unnamed/part_000`. -/
structure AiLanguageCheckResult where
  detectedLanguage : String
  languageMismatch : Bool
  suggestedText : String
  translatedText : String
deriving DecidableEq, Repr

/-- `TranslationRequest` of `src/types/translation.ts` (with `model`). -/
structure TranslationRequest where
  text : String
  sourceLanguage : String
  targetLanguage : String
  provider : Provider
  model : String
deriving DecidableEq, Repr

/-- `TranslationResponse` of `src/unnamed/part_000` as returned by
`translateText`. -/
structure TranslationResponse where
  translatedText : String
  provider : Provider
  detectedLanguage : String
  languageMismatch : Bool
  suggestedText : String
deriving DecidableEq, Repr

/-- `ApiError` of `src/types/translation.ts`. -/
structure ApiError where
  message : String
  code : String
deriving DecidableEq, Repr

/-- The acceptance test of `safeParseAiJson` (`src/unnamed/part_000` lines
43-51): accept only a truthy value whose `detectedLanguage`,
`suggestedText`, `translatedText` are strings and whose `languageMismatch`
is a boolean; anything else yields `null`.  The JS short-circuit
conjunction `parsed && typeof parsed.f === '...' && ...` is rendered as
the field-kind match guarded by truthiness: property access on any
non-object never yields a string/boolean, and every object is truthy, so
the two forms accept exactly the same values. -/
def checkAiShape (parsed : JsonValue) : Option AiLanguageCheckResult :=
  match jget parsed "detectedLanguage", jget parsed "languageMismatch",
      jget parsed "suggestedText", jget parsed "translatedText" with
  | some (.str d), some (.bool m), some (.str s), some (.str t) =>
    if jsTruthy parsed then
      some { detectedLanguage := d, languageMismatch := m,
             suggestedText := s, translatedText := t }
    else none
  | _, _, _, _ => none

/-- `safeParseAiJson` of `src/unnamed/part_000` lines 39-56: `JSON.parse`
the text (a throw yields `null`), then run the shape check on the parsed
value. -/
def safeParseAiJson (parse : String → Option JsonValue) (text : String) :
    Option AiLanguageCheckResult :=
  match parse text with
  | none => none
  | some parsed => checkAiShape parsed

/-- JS `String.prototype.trim()` on the character list of the string
(structural, so that concrete runs reduce in the kernel): drop whitespace
from both ends. -/
def jsTrim (s : String) : String :=
  ⟨((s.data.dropWhile Char.isWhitespace).reverse.dropWhile
      Char.isWhitespace).reverse⟩

/-- Split a character list at every whitespace character (one piece per
separator, empty pieces kept, like `String.split`). -/
def splitWsAux : List Char → List Char → List (List Char)
  | [], cur => [cur.reverse]
  | c :: cs, cur =>
    if c.isWhitespace then cur.reverse :: splitWsAux cs []
    else splitWsAux cs (c :: cur)

/-- `normOneLine` of `src/unnamed/part_000` line 58:
`s.replace(/\s+/g, ' ').trim()` — collapse every whitespace run to a single
space and trim both ends; equivalently, the whitespace-separated words
joined by single spaces. -/
def normOneLine (s : String) : String :=
  String.intercalate " "
    (((splitWsAux s.data []).map (fun cs => (⟨cs⟩ : String))).filter
      (· != ""))

/-- One response of the completion gateway: the raw text obtained from the
provider (after the source's optional-chaining defaults, an absent content
is the empty string), or a thrown transport error with its message. -/
abbrev GatewayReply := Except String String

/-- The gateway oracle for one `translateText` run: the response each of the
four possible round-trips would receive. -/
structure Gateway where
  first : GatewayReply
  fallback : GatewayReply
  verify : GatewayReply
  retry : GatewayReply

/-- Which of the four round-trips a gateway call is. -/
inductive CallKind where
  | first
  | fallback
  | verify
  | retry
deriving DecidableEq, Repr

/-- One gateway call as issued by `translateText`: the client object used
(`openai` or `anthropic`), the kind of call, and the user payload sent. -/
structure CallRecord where
  client : Provider
  kind : CallKind
  input : String
deriving DecidableEq, Repr

/-- The `userContent` template of `src/unnamed/part_000` lines 194-200
(backtick template, then `.trim()`). -/
def userContent (req : TranslationRequest) : String :=
  jsTrim ("\nSelected source language: " ++ req.sourceLanguage ++
    "\nTarget language: " ++ req.targetLanguage ++
    "\n\nUser input:\n" ++ req.text ++ "\n")

/-- The user payload of the simple fallback call (lines 228 / 267),
per provider. -/
def fallbackPrompt (req : TranslationRequest) : String :=
  match req.provider with
  | .openai =>
    "Translate from " ++ req.sourceLanguage ++ " to " ++ req.targetLanguage ++
    ". Text: \"" ++ req.text ++ "\""
  | .anthropic =>
    "Translate the following text from " ++ req.sourceLanguage ++ " to " ++
    req.targetLanguage ++ ". Only return the translation.\n\nText: \"" ++
    req.text ++ "\""

/-- The `input` of the verification call (line 308). -/
def verifyPrompt (req : TranslationRequest) (attempt : String) : String :=
  "Source: " ++ req.sourceLanguage ++ " Target: " ++ req.targetLanguage ++
  ".\n\nTranslation Attempt:\n" ++ attempt

/-- The user payload of the no-op retry call (lines 319 / 334-336),
per provider; both carry the original input text. -/
def retryPrompt (req : TranslationRequest) : String :=
  match req.provider with
  | .openai =>
    "Translate from " ++ req.sourceLanguage ++ " to " ++ req.targetLanguage ++
    ".\n\nText:\n" ++ req.text
  | .anthropic =>
    "Translate from " ++ req.sourceLanguage ++ " to " ++ req.targetLanguage ++
    ". Return ONLY the translation. Do not repeat the input.\n\nText:\n" ++
    req.text

/-- `translateText` error construction: the outer `catch` wraps any thrown
value into an `ApiError` with code `TRANSLATION_ERROR` (lines 356-362). -/
def mkTranslationError (msg : String) : ApiError :=
  { message := msg, code := "TRANSLATION_ERROR" }

/-- The suggested-text normalisation of `src/unnamed/part_000` lines
286-296, applied after a successful parse: when `languageMismatch` is set,
clear `suggestedText` if it is empty or normalises equal to the original
input; then (unconditionally) clear it if it equals the composed
`userContent`. -/
def normalizeSuggested (text uc : String) (r0 : AiLanguageCheckResult) :
    AiLanguageCheckResult :=
  let s1 :=
    if r0.languageMismatch ∧
        (r0.suggestedText = "" ∨
          normOneLine r0.suggestedText = normOneLine text) then ""
    else r0.suggestedText
  let s2 := if s1 = uc then "" else s1
  { r0 with suggestedText := s2 }

/-- Assemble the returned `TranslationResponse` (lines 349-355). -/
def mkResponse (req : TranslationRequest) (r : AiLanguageCheckResult) :
    TranslationResponse :=
  { translatedText := r.translatedText, provider := req.provider,
    detectedLanguage := r.detectedLanguage,
    languageMismatch := r.languageMismatch,
    suggestedText := r.suggestedText }

/-- The fallback path of `translateText` (`src/unnamed/part_000` lines
216-239 / 258-277), entered when the first response fails
`safeParseAiJson`: one plain translation call; non-empty trimmed text is
returned as the whole outcome (`detectedLanguage = sourceLanguage`, no
mismatch, no suggestion), empty text throws `No translation received from
the API`. -/
def fallbackStage (gw : Gateway) (req : TranslationRequest)
    (calls : List CallRecord) :
    Except ApiError TranslationResponse × List CallRecord :=
  match gw.fallback with
  | .error msg => (.error (mkTranslationError msg), calls)
  | .ok fbText =>
    if jsTrim fbText = "" then
      (.error (mkTranslationError "No translation received from the API"),
       calls)
    else
      (.ok { translatedText := jsTrim fbText, provider := req.provider,
             detectedLanguage := req.sourceLanguage,
             languageMismatch := false, suggestedText := "" },
       calls)

/-- The no-op retry of `translateText` (`src/unnamed/part_000` lines
312-347), entered when the post-verification `translatedText` equals
`suggestedText`: one strict-translator call with the original input text;
non-empty trimmed text replaces `translatedText`, otherwise the prior
`translatedText` is kept; either way the unit still succeeds. -/
def retryStage (gw : Gateway) (req : TranslationRequest)
    (r2 : AiLanguageCheckResult) (calls : List CallRecord) :
    Except ApiError TranslationResponse × List CallRecord :=
  match gw.retry with
  | .error msg => (.error (mkTranslationError msg), calls)
  | .ok rOut =>
    if jsTrim rOut = "" then (.ok (mkResponse req r2), calls)
    else
      (.ok (mkResponse req { r2 with translatedText := jsTrim rOut }), calls)

/-- The verification pass of `translateText` (`src/unnamed/part_000` lines
298-347): one `openai.responses.create` call — always through the `openai`
client, whatever the request's provider — whose output replaces
`translatedText`; then the no-op retry when the replaced `translatedText`
equals `suggestedText`, else the assembled outcome. -/
def verifyStage (gw : Gateway) (req : TranslationRequest)
    (r1 : AiLanguageCheckResult) (callsPrev : List CallRecord) :
    Except ApiError TranslationResponse × List CallRecord :=
  match gw.verify with
  | .error msg =>
    (.error (mkTranslationError msg),
     callsPrev ++ [⟨Provider.openai, .verify,
                    verifyPrompt req r1.translatedText⟩])
  | .ok vOut =>
    -- `result.translatedText = verify.output_text` then the no-op test
    -- `result.suggestedText === result.translatedText`; since the update
    -- only touches `translatedText`, the test is `r1.suggestedText = vOut`.
    if r1.suggestedText = vOut then
      retryStage gw req { r1 with translatedText := vOut }
        (callsPrev ++ [⟨Provider.openai, .verify,
                        verifyPrompt req r1.translatedText⟩,
                       ⟨req.provider, .retry, retryPrompt req⟩])
    else
      (.ok (mkResponse req { r1 with translatedText := vOut }),
       callsPrev ++ [⟨Provider.openai, .verify,
                      verifyPrompt req r1.translatedText⟩])

/-- `translateText` of `src/unnamed/part_000` lines 83-363, as a function of
the gateway oracle and the `JSON.parse` oracle.  Returns the outcome
(`Except.error` = the function threw an `ApiError`) together with the list
of gateway calls issued, in order.  The two provider branches of the source
run the same pipeline logic against their own client object; the branch
choice shows up in the `client` field of each call record (and, per the
source, the verification call always uses the `openai` client). -/
def translateText (gw : Gateway) (parse : String → Option JsonValue)
    (req : TranslationRequest) :
    Except ApiError TranslationResponse × List CallRecord :=
  match gw.first with
  | .error msg =>
    (.error (mkTranslationError msg),
     [⟨req.provider, .first, userContent req⟩])
  | .ok rawText =>
    match safeParseAiJson parse (jsTrim rawText) with
    | none =>
      fallbackStage gw req
        [⟨req.provider, .first, userContent req⟩,
         ⟨req.provider, .fallback, fallbackPrompt req⟩]
    | some r0 =>
      if r0.translatedText = "" then
        -- `if (!result.translatedText) throw` (lines 282-284)
        (.error (mkTranslationError "No translation received from the API"),
         [⟨req.provider, .first, userContent req⟩])
      else
        verifyStage gw req
          (normalizeSuggested req.text (userContent req) r0)
          [⟨req.provider, .first, userContent req⟩]

/-! ## Structural recursion engine (`translateJsonRecursive`, `translateJson`)

The per-leaf call `translateText({text: leaf, ...})` is abstracted as an
oracle `tr : String → Except ApiError TranslationResponse` describing, for
each string leaf, the outcome of its `translateText` call. -/

mutual

/-- `translateJsonRecursive` of `src/unnamed/part_000` lines 374-409:
strings are replaced by `translateText(...).translatedText`; arrays are
rebuilt element by element in order; objects are rebuilt field by field in
insertion order with keys untouched; numbers, booleans and null are
returned as-is.  A thrown `ApiError` from a leaf's `translateText`
propagates (`Except.error`) and aborts the whole traversal. -/
def translateJsonRecursive (tr : String → Except ApiError TranslationResponse) :
    JsonValue → Except ApiError JsonValue
  | .str s =>
    match tr s with
    | .error e => .error e
    | .ok translation => .ok (.str translation.translatedText)
  | .arr items =>
    match translateJsonList tr items with
    | .error e => .error e
    | .ok ws => .ok (.arr ws)
  | .obj fields =>
    match translateJsonFields tr fields with
    | .error e => .error e
    | .ok gs => .ok (.obj gs)
  | .num n => .ok (.num n)
  | .bool b => .ok (.bool b)
  | .null => .ok .null

/-- The `for (const item of obj)` loop over an array (lines 393-396):
sequential, first failure aborts. -/
def translateJsonList (tr : String → Except ApiError TranslationResponse) :
    List JsonValue → Except ApiError (List JsonValue)
  | [] => .ok []
  | v :: vs =>
    match translateJsonRecursive tr v with
    | .error e => .error e
    | .ok w =>
      match translateJsonList tr vs with
      | .error e => .error e
      | .ok ws => .ok (w :: ws)

/-- The `for (const [key, value] of Object.entries(obj))` loop (lines
400-403): sequential over fields, key copied verbatim, first failure
aborts. -/
def translateJsonFields (tr : String → Except ApiError TranslationResponse) :
    List (String × JsonValue) → Except ApiError (List (String × JsonValue))
  | [] => .ok []
  | (k, v) :: rest =>
    match translateJsonRecursive tr v with
    | .error e => .error e
    | .ok w =>
      match translateJsonFields tr rest with
      | .error e => .error e
      | .ok ws => .ok ((k, w) :: ws)

end

/-- `JsonTranslationRequest` of `src/types/translation.ts`. -/
structure JsonTranslationRequest where
  jsonData : JsonValue
  sourceLanguage : String
  targetLanguage : String
  provider : Provider
  model : String

/-- `JsonTranslationResponse` of `src/types/translation.ts`. -/
structure JsonTranslationResponse where
  translatedJson : JsonValue
  provider : Provider

/-- `translateJson` of `src/unnamed/part_000` lines 413-436: reject a falsy
or non-`object`-typed `jsonData` (`throw new Error('Invalid JSON data
provided')`), else run the recursion.  The outer `catch` turns an `Error`
into its message and any other thrown value (such as the plain `ApiError`
object `translateText` throws) into `'JSON translation failed'`, with code
`JSON_TRANSLATION_ERROR` either way. -/
def translateJson (tr : String → Except ApiError TranslationResponse)
    (req : JsonTranslationRequest) : Except ApiError JsonTranslationResponse :=
  if !jsTruthy req.jsonData || !jsTypeofObject req.jsonData then
    .error { message := "Invalid JSON data provided",
             code := "JSON_TRANSLATION_ERROR" }
  else
    match translateJsonRecursive tr req.jsonData with
    | .error _ =>
      .error { message := "JSON translation failed",
               code := "JSON_TRANSLATION_ERROR" }
    | .ok translated =>
      .ok { translatedJson := translated, provider := req.provider }

mutual

/-- The input/output relation the structure-preservation claim asserts of
`translateJsonRecursive`: the output keeps the kind of every node, numbers,
booleans and null by identity, arrays keep their length and are related
pointwise, objects keep their key list verbatim and are related pointwise
on values, and each string leaf `s` becomes exactly
`(tr s).translatedText` of a successful leaf call. -/
def Translates (tr : String → Except ApiError TranslationResponse) :
    JsonValue → JsonValue → Prop
  | .str s, w => ∃ r, tr s = .ok r ∧ w = .str r.translatedText
  | .num n, w => w = .num n
  | .bool b, w => w = .bool b
  | .null, w => w = .null
  | .arr items, w =>
    ∃ ws, w = .arr ws ∧ TranslatesList tr items ws
  | .obj fields, w =>
    ∃ gs, w = .obj gs ∧ TranslatesFields tr fields gs

/-- Pointwise `Translates` on arrays (same length, index by index). -/
def TranslatesList (tr : String → Except ApiError TranslationResponse) :
    List JsonValue → List JsonValue → Prop
  | [], ws => ws = []
  | v :: vs, ws =>
    ∃ w ws', ws = w :: ws' ∧ Translates tr v w ∧ TranslatesList tr vs ws'

/-- Pointwise `Translates` on object fields (same keys in the same order,
values related). -/
def TranslatesFields (tr : String → Except ApiError TranslationResponse) :
    List (String × JsonValue) → List (String × JsonValue) → Prop
  | [], gs => gs = []
  | (k, v) :: rest, gs =>
    ∃ w gs', gs = (k, w) :: gs' ∧ Translates tr v w ∧
      TranslatesFields tr rest gs'

end

mutual

/-- Whether some string leaf of the tree has a failing `translateText`
call under the oracle `tr`. -/
def hasFailingLeaf (tr : String → Except ApiError TranslationResponse) :
    JsonValue → Bool
  | .str s =>
    match tr s with
    | .error _ => true
    | .ok _ => false
  | .arr items => hasFailingLeafList tr items
  | .obj fields => hasFailingLeafFields tr fields
  | .num _ => false
  | .bool _ => false
  | .null => false

/-- `hasFailingLeaf` over the elements of an array. -/
def hasFailingLeafList (tr : String → Except ApiError TranslationResponse) :
    List JsonValue → Bool
  | [] => false
  | v :: vs => hasFailingLeaf tr v || hasFailingLeafList tr vs

/-- `hasFailingLeaf` over the values of an object's fields. -/
def hasFailingLeafFields (tr : String → Except ApiError TranslationResponse) :
    List (String × JsonValue) → Bool
  | [] => false
  | (_, v) :: rest => hasFailingLeaf tr v || hasFailingLeafFields tr rest

end

/-! ## Helper lemmas -/

/-- The shape check succeeds exactly on objects carrying the four required
fields with the required primitive kinds, and it returns those fields
verbatim. -/
theorem checkAiShape_eq_some (parsed : JsonValue) (r : AiLanguageCheckResult) :
    checkAiShape parsed = some r ↔
      ∃ fields, parsed = .obj fields ∧
        fields.lookup "detectedLanguage" = some (.str r.detectedLanguage) ∧
        fields.lookup "languageMismatch" = some (.bool r.languageMismatch) ∧
        fields.lookup "suggestedText" = some (.str r.suggestedText) ∧
        fields.lookup "translatedText" = some (.str r.translatedText) := by
  cases parsed with
  | obj fields =>
    constructor
    · intro h
      unfold checkAiShape at h
      split at h
      next d m s t hd hm hs ht =>
        simp only [jsTruthy, if_true] at h
        cases h
        simp only [jget] at hd hm hs ht
        exact ⟨fields, rfl, hd, hm, hs, ht⟩
      next => exact Option.noConfusion h
    · rintro ⟨fields', hf, hd, hm, hs, ht⟩
      cases hf
      unfold checkAiShape
      simp only [jget]
      rw [hd, hm, hs, ht]
      rfl
  | str s => simp [checkAiShape, jget]
  | num n => simp [checkAiShape, jget]
  | bool b => simp [checkAiShape, jget]
  | null => simp [checkAiShape, jget]
  | arr items => simp [checkAiShape, jget]

/-- Whether an `Except` result is an error, as a boolean. -/
def exceptIsError {ε α : Type} : Except ε α → Bool
  | .error _ => true
  | .ok _ => false

mutual

/-- A successful `translateJsonRecursive` run realises the `Translates`
relation between its input and its output. -/
theorem translates_of_ok (tr : String → Except ApiError TranslationResponse) :
    ∀ v w, translateJsonRecursive tr v = .ok w → Translates tr v w
  | .str s, w, h => by
    unfold translateJsonRecursive at h
    cases htr : tr s with
    | error e => rw [htr] at h; exact Except.noConfusion h
    | ok resp =>
      rw [htr] at h
      cases h
      unfold Translates
      exact ⟨resp, htr, rfl⟩
  | .num n, w, h => by
    unfold translateJsonRecursive at h
    cases h
    unfold Translates
    rfl
  | .bool b, w, h => by
    unfold translateJsonRecursive at h
    cases h
    unfold Translates
    rfl
  | .null, w, h => by
    unfold translateJsonRecursive at h
    cases h
    unfold Translates
    rfl
  | .arr items, w, h => by
    unfold translateJsonRecursive at h
    cases hl : translateJsonList tr items with
    | error e => rw [hl] at h; exact Except.noConfusion h
    | ok ws =>
      rw [hl] at h
      cases h
      unfold Translates
      exact ⟨ws, rfl, translatesList_of_ok tr items ws hl⟩
  | .obj fields, w, h => by
    unfold translateJsonRecursive at h
    cases hf : translateJsonFields tr fields with
    | error e => rw [hf] at h; exact Except.noConfusion h
    | ok gs =>
      rw [hf] at h
      cases h
      unfold Translates
      exact ⟨gs, rfl, translatesFields_of_ok tr fields gs hf⟩

/-- `translates_of_ok` over arrays. -/
theorem translatesList_of_ok (tr : String → Except ApiError TranslationResponse) :
    ∀ vs ws, translateJsonList tr vs = .ok ws → TranslatesList tr vs ws
  | [], ws, h => by
    unfold translateJsonList at h
    cases h
    unfold TranslatesList
    rfl
  | v :: vs, ws, h => by
    unfold translateJsonList at h
    cases hv : translateJsonRecursive tr v with
    | error e => rw [hv] at h; exact Except.noConfusion h
    | ok w =>
      rw [hv] at h
      cases hvs : translateJsonList tr vs with
      | error e => rw [hvs] at h; exact Except.noConfusion h
      | ok ws' =>
        rw [hvs] at h
        cases h
        unfold TranslatesList
        exact ⟨w, ws', rfl, translates_of_ok tr v w hv,
               translatesList_of_ok tr vs ws' hvs⟩

/-- `translates_of_ok` over object fields. -/
theorem translatesFields_of_ok
    (tr : String → Except ApiError TranslationResponse) :
    ∀ fs gs, translateJsonFields tr fs = .ok gs → TranslatesFields tr fs gs
  | [], gs, h => by
    unfold translateJsonFields at h
    cases h
    unfold TranslatesFields
    rfl
  | (k, v) :: rest, gs, h => by
    unfold translateJsonFields at h
    cases hv : translateJsonRecursive tr v with
    | error e => rw [hv] at h; exact Except.noConfusion h
    | ok w =>
      rw [hv] at h
      cases hrest : translateJsonFields tr rest with
      | error e => rw [hrest] at h; exact Except.noConfusion h
      | ok gs' =>
        rw [hrest] at h
        cases h
        unfold TranslatesFields
        exact ⟨w, gs', rfl, translates_of_ok tr v w hv,
               translatesFields_of_ok tr rest gs' hrest⟩

end

mutual

/-- `translateJsonRecursive` fails exactly when some string leaf's
`translateText` call fails. -/
theorem recursive_error_eq_hasFailingLeaf
    (tr : String → Except ApiError TranslationResponse) :
    ∀ v, exceptIsError (translateJsonRecursive tr v) = hasFailingLeaf tr v
  | .str s => by
    unfold translateJsonRecursive hasFailingLeaf
    cases tr s <;> rfl
  | .num n => by unfold translateJsonRecursive hasFailingLeaf; rfl
  | .bool b => by unfold translateJsonRecursive hasFailingLeaf; rfl
  | .null => by unfold translateJsonRecursive hasFailingLeaf; rfl
  | .arr items => by
    unfold translateJsonRecursive hasFailingLeaf
    rw [← list_error_eq_hasFailingLeafList tr items]
    cases translateJsonList tr items <;> rfl
  | .obj fields => by
    unfold translateJsonRecursive hasFailingLeaf
    rw [← fields_error_eq_hasFailingLeafFields tr fields]
    cases translateJsonFields tr fields <;> rfl

/-- `recursive_error_eq_hasFailingLeaf` over arrays. -/
theorem list_error_eq_hasFailingLeafList
    (tr : String → Except ApiError TranslationResponse) :
    ∀ vs, exceptIsError (translateJsonList tr vs) = hasFailingLeafList tr vs
  | [] => by unfold translateJsonList hasFailingLeafList; rfl
  | v :: vs => by
    unfold translateJsonList hasFailingLeafList
    rw [← recursive_error_eq_hasFailingLeaf tr v,
        ← list_error_eq_hasFailingLeafList tr vs]
    cases translateJsonRecursive tr v with
    | error e => rfl
    | ok w => cases translateJsonList tr vs <;> rfl

/-- `recursive_error_eq_hasFailingLeaf` over object fields. -/
theorem fields_error_eq_hasFailingLeafFields
    (tr : String → Except ApiError TranslationResponse) :
    ∀ fs, exceptIsError (translateJsonFields tr fs) = hasFailingLeafFields tr fs
  | [] => by unfold translateJsonFields hasFailingLeafFields; rfl
  | (k, v) :: rest => by
    unfold translateJsonFields hasFailingLeafFields
    rw [← recursive_error_eq_hasFailingLeaf tr v,
        ← fields_error_eq_hasFailingLeafFields tr rest]
    cases translateJsonRecursive tr v with
    | error e => rfl
    | ok w => cases translateJsonFields tr rest <;> rfl

end

/-- `normalizeSuggested` only rewrites `suggestedText`. -/
theorem normalizeSuggested_detectedLanguage (text uc : String)
    (r0 : AiLanguageCheckResult) :
    (normalizeSuggested text uc r0).detectedLanguage = r0.detectedLanguage :=
  rfl

/-- `normalizeSuggested` only rewrites `suggestedText`. -/
theorem normalizeSuggested_languageMismatch (text uc : String)
    (r0 : AiLanguageCheckResult) :
    (normalizeSuggested text uc r0).languageMismatch = r0.languageMismatch :=
  rfl

/-- `normalizeSuggested` only rewrites `suggestedText`. -/
theorem normalizeSuggested_translatedText (text uc : String)
    (r0 : AiLanguageCheckResult) :
    (normalizeSuggested text uc r0).translatedText = r0.translatedText :=
  rfl

/-- After normalisation, `suggestedText` is either cleared or kept
verbatim, and it is kept only if the mismatch-clearing condition did not
apply. -/
theorem normalizeSuggested_suggestedText_spec (text uc : String)
    (r0 : AiLanguageCheckResult) :
    (normalizeSuggested text uc r0).suggestedText = "" ∨
      ((normalizeSuggested text uc r0).suggestedText = r0.suggestedText ∧
        ¬(r0.languageMismatch = true ∧
          (r0.suggestedText = "" ∨
            normOneLine r0.suggestedText = normOneLine text))) := by
  unfold normalizeSuggested
  by_cases h1 : r0.languageMismatch = true ∧
      (r0.suggestedText = "" ∨
        normOneLine r0.suggestedText = normOneLine text)
  · rw [if_pos h1]
    dsimp only
    left
    by_cases h2 : ("" : String) = uc
    · rw [if_pos h2]
    · rw [if_neg h2]
  · rw [if_neg h1]
    dsimp only
    by_cases h2 : r0.suggestedText = uc
    · rw [if_pos h2]
      left
      rfl
    · rw [if_neg h2]
      right
      exact ⟨rfl, h1⟩

/-! ## Claims -/

/-- C9: `safeParseAiJson` returns a `DetectionResult` if and only if the
string parses as JSON to an object carrying all four required fields with
the required primitive kinds (`detectedLanguage`, `suggestedText`,
`translatedText` strings, `languageMismatch` boolean), and the accepted
fields are returned verbatim; on a decoding throw, a missing field or a
wrong-kind field it returns the failure value `none`.  It is a total
function, so it never throws. -/
theorem claim_C9_safeParseAiJson_iff (parse : String → Option JsonValue)
    (text : String) (r : AiLanguageCheckResult) :
    safeParseAiJson parse text = some r ↔
      ∃ fields, parse text = some (.obj fields) ∧
        fields.lookup "detectedLanguage" = some (.str r.detectedLanguage) ∧
        fields.lookup "languageMismatch" = some (.bool r.languageMismatch) ∧
        fields.lookup "suggestedText" = some (.str r.suggestedText) ∧
        fields.lookup "translatedText" = some (.str r.translatedText) := by
  cases hp : parse text with
  | none =>
    unfold safeParseAiJson
    rw [hp]
    simp
  | some parsed =>
    have hredux : safeParseAiJson parse text = checkAiShape parsed := by
      unfold safeParseAiJson
      rw [hp]
    rw [hredux, checkAiShape_eq_some]
    simp [hp]

/-- C5: for every JSON value on which `translateJson` succeeds, the
returned tree is related to the input by `Translates`: every node keeps its
kind, every mapping keeps its key list verbatim (keys are never handed to
the per-leaf `translateText` oracle, which `Translates` only ever applies
to string-leaf values), every sequence keeps its length, numbers, booleans
and null are returned unchanged by identity, and each string leaf `s` is
replaced by the `translatedText` of its successful `translateText`
call. -/
theorem claim_C5_structure_preserved
    (tr : String → Except ApiError TranslationResponse)
    (req : JsonTranslationRequest) (resp : JsonTranslationResponse)
    (h : translateJson tr req = .ok resp) :
    Translates tr req.jsonData resp.translatedJson := by
  unfold translateJson at h
  split at h
  · exact Except.noConfusion h
  · cases hrec : translateJsonRecursive tr req.jsonData with
    | error e => rw [hrec] at h; exact Except.noConfusion h
    | ok w =>
      rw [hrec] at h
      cases h
      exact translates_of_ok tr req.jsonData w hrec

/-- A per-leaf oracle that always succeeds, prefixing the text. -/
def trEcho : String → Except ApiError TranslationResponse := fun s =>
  .ok { translatedText := "T-" ++ s, provider := .openai,
        detectedLanguage := "English", languageMismatch := false,
        suggestedText := "" }

/-- Scenario-D-like input tree with every non-string kind present. -/
def jsonSampleIn : JsonValue :=
  .obj [("a", .str "Hello"),
        ("b", .obj [("c", .arr [.str "Bye", .num 3, .bool true, .null])])]

/-- A `translateJson` request carrying `jsonSampleIn`. -/
def jsonSampleReq : JsonTranslationRequest :=
  { jsonData := jsonSampleIn, sourceLanguage := "English",
    targetLanguage := "Spanish", provider := .openai, model := "gpt-test" }

/-- The tree `translateJson` produces from `jsonSampleIn` under
`trEcho`. -/
def jsonSampleOut : JsonValue :=
  .obj [("a", .str "T-Hello"),
        ("b", .obj [("c", .arr [.str "T-Bye", .num 3, .bool true, .null])])]

/-- Witness for C5 at a concrete tree. -/
theorem claim_C5_witness :
    translateJson trEcho jsonSampleReq =
      .ok { translatedJson := jsonSampleOut, provider := .openai } ∧
    Translates trEcho jsonSampleIn jsonSampleOut :=
  ⟨rfl,
   claim_C5_structure_preserved trEcho jsonSampleReq
     { translatedJson := jsonSampleOut, provider := .openai } rfl⟩

/-- A per-leaf oracle that always fails (every recovery path exhausted). -/
def trFailAll : String → Except ApiError TranslationResponse := fun _ =>
  .error { message := "No translation received from the API",
           code := "TRANSLATION_ERROR" }

/-- C6 as stated is false: `translateJson` rejects a top-level string leaf
with its `Invalid JSON data provided` error even though no string leaf's
`translateText` call fails (`trEcho` succeeds on every leaf). -/
theorem claim_C6_counterexample :
    translateJson trEcho
      { jsonData := .str "hello", sourceLanguage := "English",
        targetLanguage := "Spanish", provider := .openai,
        model := "gpt-test" } =
      .error { message := "Invalid JSON data provided",
               code := "JSON_TRANSLATION_ERROR" } ∧
    hasFailingLeaf trEcho (.str "hello") = false :=
  ⟨rfl, rfl⟩

/-- C6 amended: for every JSON value that survives the top-level guard
(`typeof === 'object'` and truthy, i.e. every array or mapping — top-level
strings, numbers, booleans and null are rejected up front with the
`Invalid JSON data provided` error), `translateJson` fails with an error
if and only if some string leaf's underlying `translateText` call fails;
the traversal is sequential and the first failing leaf aborts the whole
tree, so a partially translated tree is never returned. -/
theorem claim_C6_container_failure_iff
    (tr : String → Except ApiError TranslationResponse)
    (req : JsonTranslationRequest)
    (hobj : jsTypeofObject req.jsonData = true)
    (htru : jsTruthy req.jsonData = true) :
    (∃ e, translateJson tr req = .error e) ↔
      hasFailingLeaf tr req.jsonData = true := by
  have hiff := recursive_error_eq_hasFailingLeaf tr req.jsonData
  unfold translateJson
  rw [hobj, htru]
  simp only [Bool.not_true, Bool.or_self, Bool.false_eq_true, if_false]
  cases hrec : translateJsonRecursive tr req.jsonData with
  | error e =>
    rw [hrec] at hiff
    unfold exceptIsError at hiff
    simp [← hiff]
  | ok w =>
    rw [hrec] at hiff
    unfold exceptIsError at hiff
    simp [← hiff]

/-- Witness for C6 (amended) at a concrete array whose only leaf fails. -/
theorem claim_C6_witness :
    jsTypeofObject (JsonValue.arr [.str "x"]) = true ∧
    jsTruthy (JsonValue.arr [.str "x"]) = true ∧
    ((∃ e, translateJson trFailAll
        { jsonData := .arr [.str "x"], sourceLanguage := "English",
          targetLanguage := "Spanish", provider := .anthropic,
          model := "claude-test" } = .error e) ↔
      hasFailingLeaf trFailAll (.arr [.str "x"]) = true) :=
  ⟨rfl, rfl,
   claim_C6_container_failure_iff trFailAll
     { jsonData := .arr [.str "x"], sourceLanguage := "English",
       targetLanguage := "Spanish", provider := .anthropic,
       model := "claude-test" } rfl rfl⟩

/-! Concrete oracles for counterexamples and witnesses. -/

/-- A well-formed first-response JSON object with the four contract
fields. -/
def aiJsonObj (d : String) (m : Bool) (s t : String) : JsonValue :=
  .obj [("detectedLanguage", .str d), ("languageMismatch", .bool m),
        ("suggestedText", .str s), ("translatedText", .str t)]

/-- A `JSON.parse` oracle recognising exactly the raw text `"RAW1"`. -/
def parseOracle1 : String → Option JsonValue :=
  fun s =>
    if s = "RAW1" then some (aiJsonObj "English" false "hola" "X") else none

/-- Gateway whose verification call returns empty text. -/
def gw1 : Gateway :=
  { first := .ok "RAW1", fallback := .ok "unused",
    verify := .ok "", retry := .ok "unused" }

/-- Gateway whose verification call returns non-empty text. -/
def gw2 : Gateway :=
  { first := .ok "RAW1", fallback := .ok "unused",
    verify := .ok "Hola", retry := .ok "unused" }

/-- The plain-text request used by the concrete runs. -/
def req1 : TranslationRequest :=
  { text := "hello", sourceLanguage := "English",
    targetLanguage := "Spanish", provider := .openai, model := "gpt-test" }

/-- C1 as stated is false: when the verification pass returns empty text,
`translateText` returns a successful outcome whose `translatedText` is the
empty string (here the first response parses fine with non-empty
`translatedText = "X"` and `suggestedText = "hola"`; the verification
output `""` replaces `"X"`, differs from `"hola"` so no retry fires, and
the empty text is returned as a success). -/
theorem claim_C1_counterexample :
    (translateText gw1 parseOracle1 req1).1 =
      .ok { translatedText := "", provider := .openai,
            detectedLanguage := "English", languageMismatch := false,
            suggestedText := "hola" } := rfl

/-- C1 amended: a successful `translateText` outcome has non-empty
`translatedText` provided the verification-pass call does not return empty
text (the fallback path and the retry replacement enforce non-emptiness on
their own; only an empty verification output can flow through to a
successful outcome). -/
theorem claim_C1_translated_nonempty
    (gw : Gateway) (parse : String → Option JsonValue)
    (req : TranslationRequest)
    (hv : ∀ v, gw.verify = Except.ok v → v ≠ "")
    (resp : TranslationResponse)
    (h : (translateText gw parse req).1 = .ok resp) :
    resp.translatedText ≠ "" := by
  unfold translateText at h
  cases hf : gw.first with
  | error msg => rw [hf] at h; exact Except.noConfusion h
  | ok rawText =>
    rw [hf] at h
    dsimp only at h
    cases hp : safeParseAiJson parse (jsTrim rawText) with
    | none =>
      rw [hp] at h
      dsimp only at h
      unfold fallbackStage at h
      cases hfb : gw.fallback with
      | error msg => rw [hfb] at h; exact Except.noConfusion h
      | ok fbText =>
        rw [hfb] at h
        dsimp only at h
        by_cases hfbe : jsTrim fbText = ""
        · rw [if_pos hfbe] at h; exact Except.noConfusion h
        · rw [if_neg hfbe] at h
          cases h
          exact hfbe
    | some r0 =>
      rw [hp] at h
      dsimp only at h
      by_cases h0 : r0.translatedText = ""
      · rw [if_pos h0] at h; exact Except.noConfusion h
      · rw [if_neg h0] at h
        unfold verifyStage at h
        cases hvf : gw.verify with
        | error msg => rw [hvf] at h; exact Except.noConfusion h
        | ok vOut =>
          rw [hvf] at h
          dsimp only at h
          have hvne : vOut ≠ "" := hv vOut hvf
          by_cases hno :
              (normalizeSuggested req.text (userContent req) r0).suggestedText
                = vOut
          · rw [if_pos hno] at h
            unfold retryStage at h
            cases hr : gw.retry with
            | error msg => rw [hr] at h; exact Except.noConfusion h
            | ok rOut =>
              rw [hr] at h
              dsimp only at h
              by_cases hre : jsTrim rOut = ""
              · rw [if_pos hre] at h
                cases h
                exact hvne
              · rw [if_neg hre] at h
                cases h
                exact hre
          · rw [if_neg hno] at h
            cases h
            exact hvne

/-- Witness for C1 (amended): with a non-empty verification output, the
run of `gw2` succeeds and the theorem yields a non-empty
`translatedText`. -/
theorem claim_C1_witness :
    (∀ v, gw2.verify = Except.ok v → v ≠ "") ∧
    ({ translatedText := "Hola", provider := .openai,
       detectedLanguage := "English", languageMismatch := false,
       suggestedText := "hola" } : TranslationResponse).translatedText
      ≠ "" :=
  ⟨fun v hv => by cases hv; decide,
   claim_C1_translated_nonempty gw2 parseOracle1 req1
     (fun v hv => by cases hv; decide)
     { translatedText := "Hola", provider := .openai,
       detectedLanguage := "English", languageMismatch := false,
       suggestedText := "hola" }
     rfl⟩

/-- Every successful `translateText` run is either a fallback-path success
(first response unparseable, fallback text non-empty) or a main-path
success (parse succeeded with non-empty `translatedText`, verification
output obtained, then either no no-op retry or a retry whose trimmed text
replaced `translatedText` exactly when non-empty). -/
theorem translateText_ok_elim
    (gw : Gateway) (parse : String → Option JsonValue)
    (req : TranslationRequest) (resp : TranslationResponse)
    (h : (translateText gw parse req).1 = .ok resp) :
    (∃ rawText fbText, gw.first = .ok rawText ∧
        safeParseAiJson parse (jsTrim rawText) = none ∧
        gw.fallback = .ok fbText ∧ jsTrim fbText ≠ "" ∧
        resp = { translatedText := jsTrim fbText, provider := req.provider,
                 detectedLanguage := req.sourceLanguage,
                 languageMismatch := false, suggestedText := "" }) ∨
    (∃ rawText r0 vOut, gw.first = .ok rawText ∧
        safeParseAiJson parse (jsTrim rawText) = some r0 ∧
        r0.translatedText ≠ "" ∧ gw.verify = .ok vOut ∧
        (((normalizeSuggested req.text (userContent req) r0).suggestedText
            ≠ vOut ∧
          resp = mkResponse req
            { normalizeSuggested req.text (userContent req) r0 with
              translatedText := vOut }) ∨
         ((normalizeSuggested req.text (userContent req) r0).suggestedText
            = vOut ∧
          ∃ rOut, gw.retry = .ok rOut ∧
            ((jsTrim rOut = "" ∧ resp = mkResponse req
                { normalizeSuggested req.text (userContent req) r0 with
                  translatedText := vOut }) ∨
             (jsTrim rOut ≠ "" ∧ resp = mkResponse req
                { normalizeSuggested req.text (userContent req) r0 with
                  translatedText := jsTrim rOut }))))) := by
  unfold translateText at h
  cases hf : gw.first with
  | error msg => rw [hf] at h; exact Except.noConfusion h
  | ok rawText =>
    rw [hf] at h
    dsimp only at h
    cases hp : safeParseAiJson parse (jsTrim rawText) with
    | none =>
      rw [hp] at h
      dsimp only at h
      unfold fallbackStage at h
      cases hfb : gw.fallback with
      | error msg => rw [hfb] at h; exact Except.noConfusion h
      | ok fbText =>
        rw [hfb] at h
        dsimp only at h
        by_cases hfbe : jsTrim fbText = ""
        · rw [if_pos hfbe] at h; exact Except.noConfusion h
        · rw [if_neg hfbe] at h
          cases h
          exact Or.inl ⟨rawText, fbText, rfl, hp, rfl, hfbe, rfl⟩
    | some r0 =>
      rw [hp] at h
      dsimp only at h
      by_cases h0 : r0.translatedText = ""
      · rw [if_pos h0] at h; exact Except.noConfusion h
      · rw [if_neg h0] at h
        unfold verifyStage at h
        cases hvf : gw.verify with
        | error msg => rw [hvf] at h; exact Except.noConfusion h
        | ok vOut =>
          rw [hvf] at h
          dsimp only at h
          by_cases hno :
              (normalizeSuggested req.text (userContent req) r0).suggestedText
                = vOut
          · rw [if_pos hno] at h
            unfold retryStage at h
            cases hr : gw.retry with
            | error msg => rw [hr] at h; exact Except.noConfusion h
            | ok rOut =>
              rw [hr] at h
              dsimp only at h
              by_cases hre : jsTrim rOut = ""
              · rw [if_pos hre] at h
                cases h
                exact Or.inr ⟨rawText, r0, vOut, rfl, hp, h0, rfl,
                  Or.inr ⟨hno, rOut, rfl, Or.inl ⟨hre, rfl⟩⟩⟩
              · rw [if_neg hre] at h
                cases h
                exact Or.inr ⟨rawText, r0, vOut, rfl, hp, h0, rfl,
                  Or.inr ⟨hno, rOut, rfl, Or.inr ⟨hre, rfl⟩⟩⟩
          · rw [if_neg hno] at h
            cases h
            exact Or.inr ⟨rawText, r0, vOut, rfl, hp, h0, rfl,
              Or.inl ⟨hno, rfl⟩⟩

/-- A `JSON.parse` oracle for a mismatch-with-suggestion first response. -/
def parseOracle2 : String → Option JsonValue :=
  fun s =>
    if s = "RAW2" then some (aiJsonObj "French" true "bonjour" "X") else none

/-- Gateway for the `parseOracle2` run (verification returns `"Hola"`). -/
def gwC2 : Gateway :=
  { first := .ok "RAW2", fallback := .ok "unused",
    verify := .ok "Hola", retry := .ok "unused" }

/-- The successful outcome of the `gwC2`/`parseOracle2`/`req1` run. -/
def respC2 : TranslationResponse :=
  { translatedText := "Hola", provider := .openai,
    detectedLanguage := "French", languageMismatch := true,
    suggestedText := "bonjour" }

/-- C2 as stated is false: a gateway response asserting
`languageMismatch = true` with a `suggestedText` (`"bonjour"`) that differs
from the normalized original input (`"hello"`) is returned unchanged — the
client only clears `suggestedText` when it is empty or normalizes equal to
the input, so a mismatch outcome can carry a non-empty suggestion. -/
theorem claim_C2_counterexample :
    (translateText gwC2 parseOracle2 req1).1 = .ok respC2 ∧
    respC2.languageMismatch = true ∧ respC2.suggestedText ≠ "" :=
  ⟨rfl, rfl, by decide⟩

/-- In a successful outcome with `languageMismatch = true`,
`suggestedText` is either cleared or normalizes differently from the
original input. -/
theorem ok_mismatch_suggestion_cleared_or_differs
    (gw : Gateway) (parse : String → Option JsonValue)
    (req : TranslationRequest) (resp : TranslationResponse)
    (h : (translateText gw parse req).1 = .ok resp)
    (hm : resp.languageMismatch = true) :
    resp.suggestedText = "" ∨
      normOneLine resp.suggestedText ≠ normOneLine req.text := by
  rcases translateText_ok_elim gw parse req resp h with
    ⟨rawText, fbText, hf, hp, hfb, hfbe, hresp⟩ |
    ⟨rawText, r0, vOut, hf, hp, h0, hvf, hcase⟩
  · subst hresp
    left
    rfl
  · have hsugg : resp.suggestedText =
        (normalizeSuggested req.text (userContent req) r0).suggestedText := by
      rcases hcase with ⟨hne, hresp⟩ |
        ⟨heq, rOut, hr, ⟨hre, hresp⟩ | ⟨hre, hresp⟩⟩ <;> subst hresp <;> rfl
    have hmm : resp.languageMismatch = r0.languageMismatch := by
      rcases hcase with ⟨hne, hresp⟩ |
        ⟨heq, rOut, hr, ⟨hre, hresp⟩ | ⟨hre, hresp⟩⟩ <;> subst hresp <;> rfl
    have hr0m : r0.languageMismatch = true := by rw [← hmm]; exact hm
    rcases normalizeSuggested_suggestedText_spec req.text (userContent req) r0
      with hz | ⟨hkeep, hneg⟩
    · left
      rw [hsugg, hz]
    · right
      rw [hsugg, hkeep]
      intro hcontra
      exact hneg ⟨hr0m, Or.inr hcontra⟩

/-- C2 amended: in a successful outcome with `languageMismatch = true`,
`suggestedText` is either the empty string or a string whose
whitespace-normalized form differs from the normalized original input (the
clearing applies exactly to empty or input-equal suggestions, not to every
suggestion). -/
theorem claim_C2_mismatch_suggestion_cleared_or_differs
    (gw : Gateway) (parse : String → Option JsonValue)
    (req : TranslationRequest) (resp : TranslationResponse)
    (h : (translateText gw parse req).1 = .ok resp)
    (hm : resp.languageMismatch = true) :
    resp.suggestedText = "" ∨
      normOneLine resp.suggestedText ≠ normOneLine req.text :=
  ok_mismatch_suggestion_cleared_or_differs gw parse req resp h hm

/-- Witness for C2 (amended) at the `gwC2` run. -/
theorem claim_C2_witness :
    respC2.languageMismatch = true ∧
    (respC2.suggestedText = "" ∨
      normOneLine respC2.suggestedText ≠ normOneLine req1.text) :=
  ⟨rfl,
   claim_C2_mismatch_suggestion_cleared_or_differs gwC2 parseOracle2 req1
     respC2 rfl rfl⟩

/-- A `JSON.parse` oracle whose first response carries a suggestion equal
to the original input with `languageMismatch = false`. -/
def parseOracle3 : String → Option JsonValue :=
  fun s =>
    if s = "RAW3" then some (aiJsonObj "English" false "hello" "X") else none

/-- Gateway for the `parseOracle3` run. -/
def gwC3 : Gateway :=
  { first := .ok "RAW3", fallback := .ok "unused",
    verify := .ok "Bonjour", retry := .ok "unused" }

/-- The successful outcome of the `gwC3`/`parseOracle3`/`req1` run. -/
def respC3 : TranslationResponse :=
  { translatedText := "Bonjour", provider := .openai,
    detectedLanguage := "English", languageMismatch := false,
    suggestedText := "hello" }

/-- C3 as stated is false: when `languageMismatch` is false the client
never compares `suggestedText` against the input, so a successful outcome
can carry a non-empty `suggestedText` whose normalized form equals the
normalized original input (`"hello"` for input `"hello"`). -/
theorem claim_C3_counterexample :
    (translateText gwC3 parseOracle3 req1).1 = .ok respC3 ∧
    respC3.suggestedText ≠ "" ∧
    normOneLine respC3.suggestedText = normOneLine req1.text :=
  ⟨rfl, by decide, rfl⟩

/-- C3 amended: the no-vacuous-correction property holds exactly on the
`languageMismatch = true` branch — in a successful outcome with
`languageMismatch = true` and non-empty `suggestedText`, the normalized
suggestion differs from the normalized original input. -/
theorem claim_C3_nonvacuous_suggestion_on_mismatch
    (gw : Gateway) (parse : String → Option JsonValue)
    (req : TranslationRequest) (resp : TranslationResponse)
    (h : (translateText gw parse req).1 = .ok resp)
    (hm : resp.languageMismatch = true)
    (hs : resp.suggestedText ≠ "") :
    normOneLine resp.suggestedText ≠ normOneLine req.text := by
  rcases ok_mismatch_suggestion_cleared_or_differs gw parse req resp
    h hm with hz | hd
  · exact absurd hz hs
  · exact hd

/-- Witness for C3 (amended) at the `gwC2` run (mismatch with a genuine
suggestion). -/
theorem claim_C3_witness :
    respC2.languageMismatch = true ∧ respC2.suggestedText ≠ "" ∧
    normOneLine respC2.suggestedText ≠ normOneLine req1.text :=
  ⟨rfl, by decide,
   claim_C3_nonvacuous_suggestion_on_mismatch gwC2 parseOracle2 req1 respC2
     rfl rfl (by decide)⟩

/-- A `JSON.parse` oracle asserting `languageMismatch = true` together with
`detectedLanguage` equal to the request's source language. -/
def parseOracle4 : String → Option JsonValue :=
  fun s =>
    if s = "RAW4" then some (aiJsonObj "English" true "bonjour" "X") else none

/-- Gateway for the `parseOracle4` run. -/
def gwC4 : Gateway :=
  { first := .ok "RAW4", fallback := .ok "unused",
    verify := .ok "Hola", retry := .ok "unused" }

/-- The first-response record of the `parseOracle4` run. -/
def r0C4 : AiLanguageCheckResult :=
  { detectedLanguage := "English", languageMismatch := true,
    suggestedText := "bonjour", translatedText := "X" }

/-- The successful outcome of the `gwC4`/`parseOracle4`/`req1` run. -/
def respC4 : TranslationResponse :=
  { translatedText := "Hola", provider := .openai,
    detectedLanguage := "English", languageMismatch := true,
    suggestedText := "bonjour" }

/-- C4 as stated is false: the client never checks the claimed invariant;
a well-formed gateway response asserting `languageMismatch = true` together
with `detectedLanguage` equal to the request's `sourceLanguage`
(`"English"`) is returned unchanged, so a successful outcome can violate
`languageMismatch → detectedLanguage ≠ sourceLanguage`. -/
theorem claim_C4_counterexample :
    (translateText gwC4 parseOracle4 req1).1 = .ok respC4 ∧
    respC4.languageMismatch = true ∧
    respC4.detectedLanguage = req1.sourceLanguage :=
  ⟨rfl, rfl, rfl⟩

/-- C4 amended: `detectedLanguage` and `languageMismatch` of a successful
main-path outcome are exactly the parsed gateway fields — the client
passes them through without enforcing any relation to `sourceLanguage`. -/
theorem claim_C4_detection_passthrough
    (gw : Gateway) (parse : String → Option JsonValue)
    (req : TranslationRequest) (rawText : String)
    (r0 : AiLanguageCheckResult) (resp : TranslationResponse)
    (hf : gw.first = .ok rawText)
    (hp : safeParseAiJson parse (jsTrim rawText) = some r0)
    (h : (translateText gw parse req).1 = .ok resp) :
    resp.detectedLanguage = r0.detectedLanguage ∧
      resp.languageMismatch = r0.languageMismatch := by
  rcases translateText_ok_elim gw parse req resp h with
    ⟨rawText', fbText, hf', hp', hfb, hfbe, hresp⟩ |
    ⟨rawText', r0', vOut, hf', hp', h0, hvf, hcase⟩
  · rw [hf] at hf'
    cases hf'
    rw [hp] at hp'
    exact Option.noConfusion hp'
  · rw [hf] at hf'
    cases hf'
    rw [hp] at hp'
    cases hp'
    rcases hcase with ⟨hne, hresp⟩ |
      ⟨heq, rOut, hr, ⟨hre, hresp⟩ | ⟨hre, hresp⟩⟩ <;> subst hresp <;>
      exact ⟨rfl, rfl⟩

/-- Witness for C4 (amended) at the `gwC4` run. -/
theorem claim_C4_witness :
    gwC4.first = .ok "RAW4" ∧
    safeParseAiJson parseOracle4 (jsTrim "RAW4") = some r0C4 ∧
    (respC4.detectedLanguage = r0C4.detectedLanguage ∧
      respC4.languageMismatch = r0C4.languageMismatch) :=
  ⟨rfl, rfl,
   claim_C4_detection_passthrough gwC4 parseOracle4 req1 "RAW4" r0C4 respC4
     rfl rfl rfl⟩

/-- A `JSON.parse` oracle that always throws (malformed gateway output). -/
def parseNone : String → Option JsonValue := fun _ => none

/-- Gateway whose first response is unparseable and whose fallback returns
padded non-empty text. -/
def gwC7 : Gateway :=
  { first := .ok "not json", fallback := .ok " Hola ",
    verify := .ok "unused", retry := .ok "unused" }

/-- C7: when the first gateway response fails the Output Contract Parser,
exactly one fallback call is issued; a non-empty (trimmed) fallback text is
returned as the whole outcome with `detectedLanguage = sourceLanguage`,
`languageMismatch = false` and empty `suggestedText`, and an empty fallback
text fails the call with the no-translation error. -/
theorem claim_C7_parse_failure_fallback
    (gw : Gateway) (parse : String → Option JsonValue)
    (req : TranslationRequest) (rawText fbText : String)
    (hf : gw.first = .ok rawText)
    (hp : safeParseAiJson parse (jsTrim rawText) = none)
    (hfb : gw.fallback = .ok fbText) :
    ((translateText gw parse req).2.filter
        (fun c => c.kind == CallKind.fallback)).length = 1 ∧
    (jsTrim fbText ≠ "" →
      (translateText gw parse req).1 =
        .ok { translatedText := jsTrim fbText, provider := req.provider,
              detectedLanguage := req.sourceLanguage,
              languageMismatch := false, suggestedText := "" }) ∧
    (jsTrim fbText = "" →
      (translateText gw parse req).1 =
        .error (mkTranslationError
          "No translation received from the API")) := by
  unfold translateText
  rw [hf]
  dsimp only
  rw [hp]
  dsimp only
  unfold fallbackStage
  rw [hfb]
  dsimp only
  by_cases hfbe : jsTrim fbText = ""
  · rw [if_pos hfbe]
    refine ⟨?_, ?_, ?_⟩
    · simp
    · intro hc
      exact absurd hfbe hc
    · intro _
      rfl
  · rw [if_neg hfbe]
    refine ⟨?_, ?_, ?_⟩
    · simp
    · intro _
      rfl
    · intro hc
      exact absurd hc hfbe

/-- Witness for C7 at a concrete unparseable run with non-empty fallback
text. -/
theorem claim_C7_witness :
    safeParseAiJson parseNone (jsTrim "not json") = none ∧
    jsTrim " Hola " ≠ "" ∧
    (((translateText gwC7 parseNone req1).2.filter
        (fun c => c.kind == CallKind.fallback)).length = 1 ∧
     (jsTrim " Hola " ≠ "" →
       (translateText gwC7 parseNone req1).1 =
         .ok { translatedText := jsTrim " Hola ", provider := req1.provider,
               detectedLanguage := req1.sourceLanguage,
               languageMismatch := false, suggestedText := "" }) ∧
     (jsTrim " Hola " = "" →
       (translateText gwC7 parseNone req1).1 =
         .error (mkTranslationError
           "No translation received from the API"))) :=
  ⟨rfl, by decide,
   claim_C7_parse_failure_fallback gwC7 parseNone req1 "not json" " Hola "
     rfl rfl rfl⟩

/-- C8: in a run that reaches the verification pass, the retry call — whose
payload `retryPrompt` carries the original input text — is issued exactly
when the post-verification `translatedText` (the verification output)
equals the normalized `suggestedText`; a non-empty trimmed retry text
replaces `translatedText`, an empty one keeps the prior `translatedText`,
and the call succeeds either way. -/
theorem claim_C8_noop_retry
    (gw : Gateway) (parse : String → Option JsonValue)
    (req : TranslationRequest) (rawText : String)
    (r0 : AiLanguageCheckResult) (vOut : String)
    (hf : gw.first = .ok rawText)
    (hp : safeParseAiJson parse (jsTrim rawText) = some r0)
    (h0 : r0.translatedText ≠ "")
    (hvf : gw.verify = .ok vOut) :
    ((∃ c ∈ (translateText gw parse req).2, c.kind = CallKind.retry) ↔
      (normalizeSuggested req.text (userContent req) r0).suggestedText
        = vOut) ∧
    (∀ rOut, gw.retry = .ok rOut →
      (normalizeSuggested req.text (userContent req) r0).suggestedText
        = vOut →
      ((jsTrim rOut ≠ "" →
         (translateText gw parse req).1 = .ok (mkResponse req
           { normalizeSuggested req.text (userContent req) r0 with
             translatedText := jsTrim rOut })) ∧
       (jsTrim rOut = "" →
         (translateText gw parse req).1 = .ok (mkResponse req
           { normalizeSuggested req.text (userContent req) r0 with
             translatedText := vOut })))) := by
  unfold translateText
  rw [hf]
  dsimp only
  rw [hp]
  dsimp only
  rw [if_neg h0]
  unfold verifyStage
  rw [hvf]
  dsimp only
  by_cases hno :
      (normalizeSuggested req.text (userContent req) r0).suggestedText = vOut
  · rw [if_pos hno]
    unfold retryStage
    cases hr : gw.retry with
    | error msg =>
      dsimp only
      refine ⟨⟨fun _ => hno, fun _ => ⟨⟨req.provider, .retry, retryPrompt req⟩,
        by simp, rfl⟩⟩, ?_⟩
      intro rOut hrr
      exact Except.noConfusion hrr
    | ok rOut =>
      dsimp only
      by_cases hre : jsTrim rOut = ""
      · rw [if_pos hre]
        refine ⟨⟨fun _ => hno, fun _ => ⟨⟨req.provider, .retry,
          retryPrompt req⟩, by simp, rfl⟩⟩, ?_⟩
        intro rOut' hrr _
        cases hrr
        exact ⟨fun hc => absurd hre hc, fun _ => rfl⟩
      · rw [if_neg hre]
        refine ⟨⟨fun _ => hno, fun _ => ⟨⟨req.provider, .retry,
          retryPrompt req⟩, by simp, rfl⟩⟩, ?_⟩
        intro rOut' hrr _
        cases hrr
        exact ⟨fun _ => rfl, fun hc => absurd hc hre⟩
  · rw [if_neg hno]
    dsimp only
    refine ⟨⟨?_, fun hsugg => absurd hsugg hno⟩, ?_⟩
    · rintro ⟨c, hc, hk⟩
      simp only [List.cons_append, List.nil_append, List.mem_cons,
        List.not_mem_nil, or_false] at hc
      rcases hc with rfl | rfl
      · exact CallKind.noConfusion hk
      · exact CallKind.noConfusion hk
    · intro rOut hrr hsugg
      exact absurd hsugg hno

/-- A `JSON.parse` oracle whose first response has an empty suggestion. -/
def parseOracle8 : String → Option JsonValue :=
  fun s =>
    if s = "RAW8" then some (aiJsonObj "English" false "" "X") else none

/-- The first-response record of the `parseOracle8` run. -/
def r0C8 : AiLanguageCheckResult :=
  { detectedLanguage := "English", languageMismatch := false,
    suggestedText := "", translatedText := "X" }

/-- Gateway whose verification output equals the (empty) suggestion, so
the no-op retry fires; the retry returns padded non-empty text. -/
def gwC8 : Gateway :=
  { first := .ok "RAW8", fallback := .ok "unused",
    verify := .ok "", retry := .ok " Hola " }

/-- Witness for C8 at a concrete run whose verification output equals the
suggestion. -/
theorem claim_C8_witness :
    safeParseAiJson parseOracle8 (jsTrim "RAW8") = some r0C8 ∧
    r0C8.translatedText ≠ "" ∧
    (((∃ c ∈ (translateText gwC8 parseOracle8 req1).2,
         c.kind = CallKind.retry) ↔
       (normalizeSuggested req1.text (userContent req1) r0C8).suggestedText
         = "") ∧
     (∀ rOut, gwC8.retry = .ok rOut →
       (normalizeSuggested req1.text (userContent req1) r0C8).suggestedText
         = "" →
       ((jsTrim rOut ≠ "" →
          (translateText gwC8 parseOracle8 req1).1 = .ok (mkResponse req1
            { normalizeSuggested req1.text (userContent req1) r0C8 with
              translatedText := jsTrim rOut })) ∧
        (jsTrim rOut = "" →
          (translateText gwC8 parseOracle8 req1).1 = .ok (mkResponse req1
            { normalizeSuggested req1.text (userContent req1) r0C8 with
              translatedText := "" }))))) :=
  ⟨rfl, by decide,
   claim_C8_noop_retry gwC8 parseOracle8 req1 "RAW8" r0C8 "" rfl rfl
     (by decide) rfl⟩

/-- C10: every run whose first response parses (and reaches the
verification pass) issues the verification call through the `openai`
client, whatever the request's provider; no verification call ever goes to
the `anthropic` client. -/
theorem claim_C10_verify_openai_client
    (gw : Gateway) (parse : String → Option JsonValue)
    (req : TranslationRequest) (rawText : String)
    (r0 : AiLanguageCheckResult)
    (hf : gw.first = .ok rawText)
    (hp : safeParseAiJson parse (jsTrim rawText) = some r0)
    (h0 : r0.translatedText ≠ "") :
    (∃ c ∈ (translateText gw parse req).2,
        c.kind = CallKind.verify ∧ c.client = Provider.openai) ∧
    (∀ c ∈ (translateText gw parse req).2,
        c.kind = CallKind.verify → c.client = Provider.openai) := by
  unfold translateText
  rw [hf]
  dsimp only
  rw [hp]
  dsimp only
  rw [if_neg h0]
  unfold verifyStage
  cases hvf : gw.verify with
  | error msg =>
    dsimp only
    constructor
    · exact ⟨⟨Provider.openai, .verify, verifyPrompt req
        (normalizeSuggested req.text (userContent req) r0).translatedText⟩,
        by simp, rfl, rfl⟩
    · intro c hc hk
      simp only [List.cons_append, List.nil_append, List.mem_cons,
        List.not_mem_nil, or_false] at hc
      rcases hc with rfl | rfl
      · exact CallKind.noConfusion hk
      · rfl
  | ok vOut =>
    dsimp only
    by_cases hno :
        (normalizeSuggested req.text (userContent req) r0).suggestedText
          = vOut
    · rw [if_pos hno]
      unfold retryStage
      have htrace3 : ∀ c : CallRecord,
          c ∈ ([⟨req.provider, CallKind.first, userContent req⟩] ++
               [⟨Provider.openai, CallKind.verify, verifyPrompt req
                  (normalizeSuggested req.text
                    (userContent req) r0).translatedText⟩,
                ⟨req.provider, CallKind.retry, retryPrompt req⟩] :
              List CallRecord) →
          c.kind = CallKind.verify → c.client = Provider.openai := by
        intro c hc hk
        simp only [List.cons_append, List.nil_append, List.mem_cons,
          List.not_mem_nil, or_false] at hc
        rcases hc with rfl | rfl | rfl
        · exact CallKind.noConfusion hk
        · rfl
        · exact CallKind.noConfusion hk
      cases hr : gw.retry with
      | error msg =>
        dsimp only
        exact ⟨⟨⟨Provider.openai, .verify, verifyPrompt req
          (normalizeSuggested req.text (userContent req) r0).translatedText⟩,
          by simp, rfl, rfl⟩, htrace3⟩
      | ok rOut =>
        dsimp only
        by_cases hre : jsTrim rOut = ""
        · rw [if_pos hre]
          exact ⟨⟨⟨Provider.openai, .verify, verifyPrompt req
            (normalizeSuggested req.text
              (userContent req) r0).translatedText⟩,
            by simp, rfl, rfl⟩, htrace3⟩
        · rw [if_neg hre]
          exact ⟨⟨⟨Provider.openai, .verify, verifyPrompt req
            (normalizeSuggested req.text
              (userContent req) r0).translatedText⟩,
            by simp, rfl, rfl⟩, htrace3⟩
    · rw [if_neg hno]
      dsimp only
      constructor
      · exact ⟨⟨Provider.openai, .verify, verifyPrompt req
          (normalizeSuggested req.text (userContent req) r0).translatedText⟩,
          by simp, rfl, rfl⟩
      · intro c hc hk
        simp only [List.cons_append, List.nil_append, List.mem_cons,
          List.not_mem_nil, or_false] at hc
        rcases hc with rfl | rfl
        · exact CallKind.noConfusion hk
        · rfl

/-- The `req1` request with the `anthropic` provider. -/
def reqAnth : TranslationRequest :=
  { text := "hello", sourceLanguage := "English",
    targetLanguage := "Spanish", provider := .anthropic,
    model := "claude-test" }

/-- Witness for C10 at a concrete run with the `anthropic` provider. -/
theorem claim_C10_witness :
    reqAnth.provider = Provider.anthropic ∧
    ((∃ c ∈ (translateText gw2 parseOracle1 reqAnth).2,
        c.kind = CallKind.verify ∧ c.client = Provider.openai) ∧
     (∀ c ∈ (translateText gw2 parseOracle1 reqAnth).2,
        c.kind = CallKind.verify → c.client = Provider.openai)) :=
  ⟨rfl,
   claim_C10_verify_openai_client gw2 parseOracle1 reqAnth "RAW1"
     { detectedLanguage := "English", languageMismatch := false,
       suggestedText := "hola", translatedText := "X" }
     rfl rfl (by decide)⟩

/-- Witness for C9 at a concrete parse oracle and raw text. -/
theorem claim_C9_witness :
    (safeParseAiJson parseOracle1 "RAW1" = some
      { detectedLanguage := "English", languageMismatch := false,
        suggestedText := "hola", translatedText := "X" } ↔
    ∃ fields, parseOracle1 "RAW1" = some (JsonValue.obj fields) ∧
      fields.lookup "detectedLanguage" = some (.str "English") ∧
      fields.lookup "languageMismatch" = some (.bool false) ∧
      fields.lookup "suggestedText" = some (.str "hola") ∧
      fields.lookup "translatedText" = some (.str "X")) :=
  claim_C9_safeParseAiJson_iff parseOracle1 "RAW1"
    { detectedLanguage := "English", languageMismatch := false,
      suggestedText := "hola", translatedText := "X" }

end TranslationApp
